import Mathlib

/-!
Shallow embedding of the combat simulation core of the PYgame repository
(src/PYgame/player.py and src/PYgame/game_state.py, the modular,
authoritative implementation per the spec).

Python integers are modelled as `Int`, Python floats as exact rationals
(`Rat`): all constants appearing in the combat core (speeds such as 5.5,
fractions such as 0.3/0.7/0.4) are decimal and are represented exactly.
Rectangle coordinates are kept in `Rat` (pygame stores them as ints; none
of the verified properties depends on sub-pixel truncation).  Rendering
state (`body_parts` dictionaries, colours) is omitted except for the arm
positions that feed `get_attack_rect`; hit-effect and statistics
bookkeeping in `Game.check_collisions` is omitted because it never feeds
back into combat state.
-/

namespace PYgame

/-- The `block_direction` / hand-side strings "left" / "right". -/
inductive Dir where
  | left : Dir
  | right : Dir
deriving DecidableEq, Repr

/-- `enums.BodyType` (player.py lines 17-23). -/
inductive BodyType where
  | ATHLETIC | LEAN | HEAVY | SUMO | NINJA | ROBOTIC
deriving DecidableEq, Repr

/-- `AnimationState` (player.py lines 25-30). -/
inductive AnimationState where
  | idle | walking | attacking | blocking | hurt
deriving DecidableEq, Repr

/-- `BodyParameters` dataclass (player.py lines 38-52). -/
structure BodyParameters where
  width : Int
  height : Int
  speed : Rat
  health : Int
  max_health : Int
  head_radius : Int
  shoulder_width : Int
  waist_width : Int
  arm_thickness : Int
  leg_thickness : Int
  arm_length : Int
  damage : Int
deriving DecidableEq, Repr

/-- `BodyTypeParameters.PARAMETERS` (player.py lines 57-94). -/
def PARAMETERS : BodyType → BodyParameters
  | BodyType.ATHLETIC =>
      { width := 52, height := 130, speed := 5.5, health := 100, max_health := 100,
        head_radius := 18, shoulder_width := 45, waist_width := 40,
        arm_thickness := 16, leg_thickness := 18, arm_length := 55, damage := 10 }
  | BodyType.LEAN =>
      { width := 42, height := 140, speed := 6.0, health := 90, max_health := 90,
        head_radius := 16, shoulder_width := 35, waist_width := 32,
        arm_thickness := 12, leg_thickness := 14, arm_length := 60, damage := 9 }
  | BodyType.HEAVY =>
      { width := 65, height := 125, speed := 4.5, health := 120, max_health := 120,
        head_radius := 22, shoulder_width := 55, waist_width := 50,
        arm_thickness := 20, leg_thickness := 22, arm_length := 50, damage := 12 }
  | BodyType.SUMO =>
      { width := 75, height := 115, speed := 3.5, health := 150, max_health := 150,
        head_radius := 25, shoulder_width := 60, waist_width := 70,
        arm_thickness := 18, leg_thickness := 20, arm_length := 45, damage := 15 }
  | BodyType.NINJA =>
      { width := 45, height := 135, speed := 6.5, health := 85, max_health := 85,
        head_radius := 17, shoulder_width := 38, waist_width := 35,
        arm_thickness := 13, leg_thickness := 15, arm_length := 65, damage := 8 }
  | BodyType.ROBOTIC =>
      { width := 58, height := 145, speed := 5.0, health := 110, max_health := 110,
        head_radius := 20, shoulder_width := 50, waist_width := 45,
        arm_thickness := 17, leg_thickness := 19, arm_length := 58, damage := 11 }

/-- The combat-relevant mutable state of `class Player` (player.py lines
102-143).  `x`, `y` are floats in Python once a fractional speed has been
added, hence `Rat`; the tick counters are Python ints. -/
structure Player where
  x : Rat
  y : Rat
  params : BodyParameters
  moving_left : Bool
  moving_right : Bool
  attacking : Bool
  blocking : Bool
  block_direction : Dir
  attack_cooldown : Int
  block_cooldown : Int
  attack_animation : Int
  already_hit_in_current_attack : Bool
  attacking_with_right : Bool
  animation_state : AnimationState
  health : Int
  max_health : Int
deriving DecidableEq, Repr

/-- `Player.__init__` (player.py lines 105-145): fresh fighter at (x, y)
with the archetype's parameters and full health. -/
def mkPlayer (x y : Rat) (body_type : BodyType) : Player :=
  { x := x, y := y, params := PARAMETERS body_type,
    moving_left := false, moving_right := false,
    attacking := false, blocking := false,
    block_direction := Dir.left,
    attack_cooldown := 0, block_cooldown := 0, attack_animation := 0,
    already_hit_in_current_attack := false, attacking_with_right := true,
    animation_state := AnimationState.idle,
    health := (PARAMETERS body_type).health,
    max_health := (PARAMETERS body_type).max_health }

/-- The expression `self.x + self.params.width // 2` (horizontal center),
used in `determine_attack_hand`, `block`, `update`, `update_body_parts`. -/
def Player.center_x (p : Player) : Rat :=
  p.x + ((p.params.width / 2 : Int) : Rat)

/-- `Player.determine_attack_hand` (player.py lines 152-162). -/
def Player.determine_attack_hand (p : Player) (opponent_x : Rat) : Player :=
  let p := if opponent_x < p.center_x
           then { p with attacking_with_right := false }
           else { p with attacking_with_right := true }
  if p.attacking_with_right
  then { p with block_direction := Dir.left }
  else { p with block_direction := Dir.right }

/-- `Player.move_left` (player.py lines 164-168). -/
def Player.move_left (p : Player) : Player :=
  { p with moving_left := true, moving_right := false,
           animation_state := AnimationState.walking }

/-- `Player.move_right` (player.py lines 170-174). -/
def Player.move_right (p : Player) : Player :=
  { p with moving_right := true, moving_left := false,
           animation_state := AnimationState.walking }

/-- `Player.stop_moving` (player.py lines 176-181). -/
def Player.stop_moving (p : Player) : Player :=
  let p := { p with moving_left := false, moving_right := false }
  if ¬p.attacking ∧ ¬p.blocking
  then { p with animation_state := AnimationState.idle }
  else p

/-- `Player.attack` (player.py lines 183-191). -/
def Player.attack (p : Player) (opponent_x : Rat) : Player :=
  if p.attack_cooldown ≤ 0 then
    let p := p.determine_attack_hand opponent_x
    { p with attacking := true, attack_animation := 15, attack_cooldown := 30,
             already_hit_in_current_attack := false,
             animation_state := AnimationState.attacking }
  else p

/-- `Player.block` (player.py lines 193-202). -/
def Player.block (p : Player) (opponent_x : Rat) : Player :=
  if p.block_cooldown ≤ 0 then
    let p := if opponent_x < p.center_x
             then { p with block_direction := Dir.left }
             else { p with block_direction := Dir.right }
    { p with blocking := true, block_cooldown := 40,
             animation_state := AnimationState.blocking }
  else p

/-- The movement step of `Player.update` (player.py lines 628-631): each
direction moves by `speed` only when the pre-move position is strictly
inside the corresponding boundary; the result is not clamped. -/
def Player.updateMove (p : Player) (screen_width : Rat) : Player :=
  let p := if p.moving_left ∧ 0 < p.x
           then { p with x := p.x - p.params.speed } else p
  if p.moving_right ∧ p.x < screen_width - (p.params.width : Rat)
  then { p with x := p.x + p.params.speed } else p

/-- The attack-animation countdown of `Player.update` (player.py lines
635-641): while a swing is live the counter drops by one, and on
reaching 0 the swing ends, resetting `attacking` and
`already_hit_in_current_attack` together. -/
def Player.updateAttackAnim (p : Player) : Player :=
  if p.attacking ∧ 0 < p.attack_animation then
    let p := { p with attack_animation := p.attack_animation - 1 }
    if p.attack_animation ≤ 0 then
      let p := { p with attacking := false,
                        already_hit_in_current_attack := false }
      if ¬p.moving_left ∧ ¬p.moving_right
      then { p with animation_state := AnimationState.idle } else p
    else p
  else p

/-- `self.y = ground_y - self.params.height` (player.py line 633). -/
def Player.snapGround (p : Player) (ground_y : Rat) : Player :=
  { p with y := ground_y - (p.params.height : Rat) }

/-- The attack-cooldown countdown of `Player.update`
(player.py lines 643-644). -/
def Player.tickAttackCooldown (p : Player) : Player :=
  if 0 < p.attack_cooldown
  then { p with attack_cooldown := p.attack_cooldown - 1 } else p

/-- The block-cooldown countdown of `Player.update` (player.py lines
646-651): `blocking` is cleared exactly on the tick the countdown
reaches 0. -/
def Player.tickBlockCooldown (p : Player) : Player :=
  if 0 < p.block_cooldown then
    let p := { p with block_cooldown := p.block_cooldown - 1 }
    if p.block_cooldown ≤ 0 then
      let p := { p with blocking := false }
      if ¬p.moving_left ∧ ¬p.moving_right ∧ ¬p.attacking
      then { p with animation_state := AnimationState.idle } else p
    else p
  else p

/-- The live block re-aim of `Player.update` (player.py lines 653-657):
while blocking and the opponent's position is known, `block_direction`
follows the opponent. -/
def Player.reaimBlock (p : Player) (opponent_x : Option Rat) : Player :=
  match opponent_x with
  | some ox =>
      if p.blocking then
        if ox < p.center_x
        then { p with block_direction := Dir.left }
        else { p with block_direction := Dir.right }
      else p
  | none => p

/-- `Player.update` (player.py lines 626-659), the per-tick state
advance, in source order: movement with boundary guards, snap to ground,
attack-animation countdown with end-of-swing reset, cooldown countdowns
(block expiry clears `blocking`), and live re-aim of `block_direction`
while blocking. -/
def Player.update (p : Player) (ground_y screen_width : Rat)
    (opponent_x : Option Rat) : Player :=
  (((((p.updateMove screen_width).snapGround
    ground_y).updateAttackAnim).tickAttackCooldown).tickBlockCooldown).reaimBlock
    opponent_x

/-- `Player.take_damage` (player.py lines 661-669).  Returns the Python
return value (damage dealt or not) together with the updated fighter; a
missing `damage` argument defaults to the fighter's own
`self.params.damage`. -/
def Player.take_damage (p : Player) (damage : Option Int) : Bool × Player :=
  if ¬p.blocking then
    let d := damage.getD p.params.damage
    (true, { p with health := max 0 (p.health - d),
                    animation_state := AnimationState.hurt })
  else (false, p)

/-- `Player.heal` (player.py lines 671-673). -/
def Player.heal (p : Player) (amount : Int) : Player :=
  { p with health := min p.max_health (p.health + amount) }

/-- An axis-aligned `pygame.Rect` (x, y, w, h), coordinates kept exact. -/
structure Rect where
  x : Rat
  y : Rat
  w : Rat
  h : Rat
deriving DecidableEq, Repr

/-- `pygame.Rect.colliderect`: two rectangles overlap; zero-sized
rectangles never collide. -/
def Rect.collides (a b : Rect) : Prop :=
  a.w ≠ 0 ∧ a.h ≠ 0 ∧ b.w ≠ 0 ∧ b.h ≠ 0 ∧
  b.x < a.x + a.w ∧ a.x < b.x + b.w ∧
  b.y < a.y + a.h ∧ a.y < b.y + b.h

instance (a b : Rect) : Decidable (Rect.collides a b) := by
  unfold Rect.collides; infer_instance

/-- `Player.get_rect` (player.py lines 675-682): the defender-side body
box including the head offset. -/
def Player.get_rect (p : Player) : Rect :=
  { x := p.x, y := p.y - (p.params.head_radius : Rat) * 2,
    w := (p.params.width : Rat),
    h := (p.params.height : Rat) + (p.params.head_radius : Rat) * 2 }

/-- `attack_progress = self.attack_animation / 15.0 if self.attacking
else 0` (player.py line 267). -/
def Player.attack_progress (p : Player) : Rat :=
  if p.attacking then (p.attack_animation : Rat) / 15 else 0

/-- `attack_strength = 1.0 - abs(attack_progress - 0.5) * 2`
(player.py line 268). -/
def Player.attack_strength (p : Player) : Rat :=
  1 - |p.attack_progress - 0.5| * 2

/-- `left_shoulder_x = center_x - self.params.shoulder_width // 2 + 5`
(player.py line 271). -/
def Player.left_shoulder_x (p : Player) : Rat :=
  p.center_x - ((p.params.shoulder_width / 2 : Int) : Rat) + 5

/-- `right_shoulder_x = center_x + self.params.shoulder_width // 2 - 5`
(player.py line 272). -/
def Player.right_shoulder_x (p : Player) : Rat :=
  p.center_x + ((p.params.shoulder_width / 2 : Int) : Rat) - 5

/-- `shoulder_y = base_y + 5` (player.py line 273). -/
def Player.shoulder_y (p : Player) : Rat := p.y + 5

/-- The `arm_positions["right_lower"]["current_x"], ["current_y"]` pair
as set by `update_body_parts` (player.py lines 276-319): thrust forward
while attacking with the right hand, pulled back while attacking with
the left, hanging position otherwise. -/
def Player.right_lower_pos (p : Player) : Rat × Rat :=
  if p.attacking then
    if p.attacking_with_right then
      (p.right_shoulder_x + (50 * p.attack_strength) * 0.7,
       p.shoulder_y + (-20 * p.attack_strength) * 0.7)
    else
      (p.right_shoulder_x + 20, p.shoulder_y + 30)
  else
    (p.right_shoulder_x, p.shoulder_y + (p.params.arm_length : Rat) * 0.6)

/-- The `arm_positions["left_lower"]` pair set by `update_body_parts`
(player.py lines 276-319), mirror image of `right_lower_pos`. -/
def Player.left_lower_pos (p : Player) : Rat × Rat :=
  if p.attacking then
    if p.attacking_with_right then
      (p.left_shoulder_x - 20, p.shoulder_y + 30)
    else
      (p.left_shoulder_x + (-50 * p.attack_strength) * 0.7,
       p.shoulder_y + (-20 * p.attack_strength) * 0.7)
  else
    (p.left_shoulder_x, p.shoulder_y + (p.params.arm_length : Rat) * 0.6)

/-- `Player.get_attack_rect` (player.py lines 684-710): a 30x30 box at
the attacking hand's tip, the zero rectangle when not attacking. -/
def Player.get_attack_rect (p : Player) : Rect :=
  if ¬p.attacking then { x := 0, y := 0, w := 0, h := 0 }
  else if p.attacking_with_right then
    let hand_x := (p.right_lower_pos).1
    let hand_y := (p.right_lower_pos).2 + (p.params.arm_length : Rat) * 0.4
    { x := hand_x - 15, y := hand_y - 15, w := 30, h := 30 }
  else
    let hand_x := (p.left_lower_pos).1
    let hand_y := (p.left_lower_pos).2 + (p.params.arm_length : Rat) * 0.4
    { x := hand_x - 15, y := hand_y - 15, w := 30, h := 30 }

/-- `Player.get_block_rect` (player.py lines 712-734): a 25x80 box on
the guarded side, the zero rectangle when not blocking. -/
def Player.get_block_rect (p : Player) : Rect :=
  if ¬p.blocking then { x := 0, y := 0, w := 0, h := 0 }
  else if p.block_direction = Dir.left then
    { x := p.center_x - ((p.params.shoulder_width / 2 : Int) : Rat) - 25,
      y := p.y + 25, w := 25, h := 80 }
  else
    { x := p.center_x + ((p.params.shoulder_width / 2 : Int) : Rat),
      y := p.y + 25, w := 25, h := 80 }

/-- `Game.check_block` (game_state.py lines 885-900): a block succeeds
only when the defender is blocking, the guarded side matches the
attacking hand, and the attacker stands on the matching side. -/
def check_block (defender attacker : Player) : Bool :=
  if ¬defender.blocking then false
  else if attacker.attacking_with_right then
    if defender.block_direction = Dir.right ∧ attacker.x < defender.x
    then true else false
  else
    if defender.block_direction = Dir.left ∧ defender.x < attacker.x
    then true else false

/-- One directed half of `Game.check_collisions` (game_state.py lines
837-859 for attacker = player1, lines 861-883 mirrored): if the
attacker's swing is live, unconsumed and its attack rectangle overlaps
the defender's body, either the block succeeds (swing consumed, no
health change) or `take_damage()` is called on the defender — with no
argument, so the defender's own archetype damage applies — and the
swing is consumed only if damage was actually dealt.  Hit-effect and
statistics bookkeeping is dropped (it never feeds back into combat
state).  Returns (attacker, defender). -/
def resolveAttack (atk dfn : Player) : Player × Player :=
  if atk.attacking ∧ ¬atk.already_hit_in_current_attack ∧
     Rect.collides atk.get_attack_rect dfn.get_rect then
    if check_block dfn atk then
      ({ atk with already_hit_in_current_attack := true }, dfn)
    else
      let r := dfn.take_damage none
      if r.1 then
        ({ atk with already_hit_in_current_attack := true }, r.2)
      else (atk, r.2)
  else (atk, dfn)

/-- `Game.check_collisions` (game_state.py lines 835-883): player1's
swing is resolved against player2 first, then player2's (possibly
already modified) swing against the possibly already damaged player1. -/
def check_collisions (p1 p2 : Player) : Player × Player :=
  let s := resolveAttack p1 p2
  let t := resolveAttack s.2 s.1
  (t.2, t.1)

/-- `Game.update_pvp_mode` (game_state.py lines 821-828), one resolver
tick: player1 updates against player2's previous position, player2
against player1's already-updated position, then collisions resolve. -/
def pvp_tick (ground_y screen_width : Rat) (st : Player × Player) :
    Player × Player :=
  let p1 := st.1.update ground_y screen_width (some st.2.x)
  let p2 := st.2.update ground_y screen_width (some p1.x)
  check_collisions p1 p2

/-- The `last_action` labels assigned in `Bot.make_decision`. -/
inductive BotAction where
  | attack | block | retreat | wait | advance | positioning | prepare
deriving DecidableEq, Repr

/-- The difficulty presets of `Bot.set_difficulty`
(player.py lines 847-859). -/
inductive Difficulty where
  | easy | medium | hard | insane
deriving DecidableEq, Repr

/-- `difficulty_settings` (player.py lines 849-854):
(aggression, caution, reaction_time). -/
def difficultySettings : Difficulty → Rat × Rat × Int
  | Difficulty.easy => (0.4, 0.7, 40)
  | Difficulty.medium => (0.6, 0.4, 25)
  | Difficulty.hard => (0.8, 0.2, 15)
  | Difficulty.insane => (0.9, 0.1, 8)

/-- `class Bot(Player)` (player.py lines 831-845), rendered as
composition: the underlying `Player` plus the bot-policy state. -/
structure Bot where
  p : Player
  decision_cooldown : Int
  aggression : Rat
  caution : Rat
  reaction_time : Int
  last_action : Option BotAction
deriving DecidableEq, Repr

/-- `Bot.__init__` (player.py lines 834-845) with `set_difficulty`
applied. -/
def mkBot (x y : Rat) (body_type : BodyType) (d : Difficulty) : Bot :=
  { p := mkPlayer x y body_type, decision_cooldown := 0,
    aggression := (difficultySettings d).1,
    caution := (difficultySettings d).2.1,
    reaction_time := (difficultySettings d).2.2,
    last_action := none }

/-- One `random.random()` call, consuming the head of an injected draw
list (an exhausted list yields 1, outside the `< p` thresholds for
`p ≤ 1`, mirroring that `random.random()` is always `< 1`). -/
def draw (l : List Rat) : Rat × List Rat := (l.headD 1, l.tail)

/-- `if player_is_left: self.move_left() else: self.move_right()`,
the advance/retreat move used in each distance band of
`Bot.make_decision`. -/
def moveToward (p : Player) (player_is_left : Bool) : Player :=
  if player_is_left then p.move_left else p.move_right

/-- The distance-banded behaviour selection of `Bot.make_decision`
(player.py lines 874-934).  Reads `aggression`/`caution`, consumes
successive `random.random()` draws exactly as the Python `if`/`elif`
chains do, and returns the updated fighter together with the chosen
`last_action`; it never writes the bot-policy fields. -/
def decideBand (p : Player) (aggression caution : Rat) (player_x : Rat)
    (player_is_left : Bool) (distance : Rat) (rnds : List Rat) :
    Player × BotAction :=
  if distance < 80 then
    let d1 := draw rnds
    if d1.1 < aggression * 1.2 then
      let d2 := draw d1.2
      if d2.1 < 0.8 then (p.attack player_x, BotAction.attack)
      else (p.block player_x, BotAction.block)
    else
      let d2 := draw d1.2
      if d2.1 < caution * 0.8 then (moveToward p player_is_left, BotAction.retreat)
      else (p, BotAction.wait)
  else if distance < 150 then
    let d1 := draw rnds
    if d1.1 < aggression then
      let d2 := draw d1.2
      if d2.1 < 0.6 then (p.attack player_x, BotAction.attack)
      else (moveToward p player_is_left, BotAction.advance)
    else
      let d2 := draw d1.2
      if d2.1 < caution then (p.block player_x, BotAction.block)
      else (moveToward p player_is_left, BotAction.positioning)
  else if distance < 250 then
    let d1 := draw rnds
    if d1.1 < 0.6 then (moveToward p player_is_left, BotAction.advance)
    else
      let d2 := draw d1.2
      if d2.1 < 0.3 then (p.block player_x, BotAction.prepare)
      else (p, BotAction.wait)
  else
    let d1 := draw rnds
    if d1.1 < 0.8 then (moveToward p player_is_left, BotAction.advance)
    else (p, BotAction.wait)

/-- The health adaptation at the end of `Bot.make_decision`
(player.py lines 936-944). -/
def Bot.adaptHealth (b : Bot) : Bot :=
  let health_percentage : Rat := (b.p.health : Rat) / (b.p.max_health : Rat)
  if health_percentage < 0.3 then
    { b with aggression := min 0.95 (b.aggression + 0.2),
             caution := max 0.05 (b.caution - 0.1) }
  else if health_percentage < 0.6 then
    { b with aggression := min 0.8 (b.aggression + 0.1),
             caution := max 0.2 (b.caution - 0.05) }
  else b

/-- `Bot.make_decision` (player.py lines 861-963) as called from
`Game.update_pvb_mode`: the opponent is a plain `Player`, so the
`hasattr(player, 'last_action')` counter-adaptation branch never fires
and is omitted.  `random.randint(lo, hi)` for the next decision
cooldown is modelled by clamping an arbitrary injected draw into
`[lo, hi]`.  When the decision cooldown is still running it is merely
decremented and nothing else happens. -/
def Bot.make_decision (b : Bot) (player : Player) (screen_width : Rat)
    (rnds : List Rat) (cooldownDraw : Int) : Bot :=
  if 0 < b.decision_cooldown then
    { b with decision_cooldown := b.decision_cooldown - 1 }
  else
    let distance := |b.p.x - player.x|
    let player_is_left := decide (player.x < b.p.x)
    let p := b.p.stop_moving
    let p := { p with attacking := false, blocking := false }
    let r := decideBand p b.aggression b.caution player.x player_is_left
               distance rnds
    let b := { b with p := r.1, last_action := some r.2 }
    let b := b.adaptHealth
    let lo := max 5 (b.reaction_time - 5)
    let hi := min 30 (b.reaction_time + 5)
    { b with decision_cooldown := min hi (max lo cooldownDraw) }

/-- `Bot.update` (player.py lines 965-972): the ordinary `Player.update`
followed by a 30%-chance automatic block at low health when the
opponent's position is known; `r` is the injected `random.random()`
draw. -/
def Bot.update (b : Bot) (ground_y screen_width : Rat)
    (opponent_x : Option Rat) (r : Rat) : Bot :=
  let b := { b with p := b.p.update ground_y screen_width opponent_x }
  if (b.p.health : Rat) < (b.p.max_health : Rat) * 0.3 ∧ r < 0.3 then
    match opponent_x with
    | some ox => { b with p := b.p.block ox }
    | none => b
  else b

/-- The public operations through which the program mutates a `Player`
(player.py lines 164-202, 626-673): the fighter API called by the input
layer, the game loop and the resolver. -/
inductive POp where
  | moveLeft : POp
  | moveRight : POp
  | stopMoving : POp
  | attack (opponent_x : Rat) : POp
  | block (opponent_x : Rat) : POp
  | update (ground_y screen_width : Rat) (opponent_x : Option Rat) : POp
  | takeDamage (damage : Option Int) : POp
  | heal (amount : Int) : POp

/-- Application of one `POp` to a fighter. -/
def applyOp (p : Player) : POp → Player
  | POp.moveLeft => p.move_left
  | POp.moveRight => p.move_right
  | POp.stopMoving => p.stop_moving
  | POp.attack ox => p.attack ox
  | POp.block ox => p.block ox
  | POp.update gy sw ox => p.update gy sw ox
  | POp.takeDamage d => (p.take_damage d).2
  | POp.heal a => p.heal a

/-! Concrete fighters and bots used as witnesses and counterexamples.
All are reachable states: the attack fields are those of a fighter 7
ticks into a swing started by `attack`, the block fields those of a
fighter a few ticks into a block started by `block`. -/

/-- An athletic fighter at x = 300 that just called `attack(360)`. -/
def exAtk300 : Player := (mkPlayer 300 470 BodyType.ATHLETIC).attack 360

/-- An athletic fighter standing at x = 360, not blocking. -/
def exDef360 : Player := mkPlayer 360 470 BodyType.ATHLETIC

/-- An athletic attacker at x = 140, 7 ticks into a right-hand swing
aimed at an opponent on its right. -/
def exA : Player :=
  { mkPlayer 140 470 BodyType.ATHLETIC with
    attacking := true, attacking_with_right := true, attack_animation := 8,
    attack_cooldown := 23, block_direction := Dir.left }

/-- An athletic defender at x = 200 that called `block(140)` a few ticks
ago: blocking on the left, the side the strike comes from. -/
def exD : Player :=
  { mkPlayer 200 470 BodyType.ATHLETIC with
    blocking := true, block_direction := Dir.left, block_cooldown := 35 }

/-- A ninja attacker (archetype damage 8) at x = 160, mid-swing with the
right hand. -/
def exN : Player :=
  { mkPlayer 160 465 BodyType.NINJA with
    attacking := true, attacking_with_right := true, attack_animation := 8,
    attack_cooldown := 23, block_direction := Dir.left }

/-- A sumo defender (archetype damage 15) at x = 220, not blocking. -/
def exS : Player := mkPlayer 220 485 BodyType.SUMO

/-- An insane-difficulty bot (aggression 0.9, caution 0.1) at half
health. -/
def exB9 : Bot :=
  { mkBot 400 470 BodyType.ATHLETIC Difficulty.insane with
    p := { (mkBot 400 470 BodyType.ATHLETIC Difficulty.insane).p with
           health := 50 } }

/-- A medium bot one tick into a 40-tick block window. -/
def exB5 : Bot :=
  { mkBot 400 470 BodyType.ATHLETIC Difficulty.medium with
    p := { (mkBot 400 470 BodyType.ATHLETIC Difficulty.medium).p with
           blocking := true, block_cooldown := 39 } }

/-- A medium bot at low health whose decision cooldown is still
running. -/
def exB10 : Bot :=
  { mkBot 400 470 BodyType.ATHLETIC Difficulty.medium with
    decision_cooldown := 7,
    p := { (mkBot 400 470 BodyType.ATHLETIC Difficulty.medium).p with
           health := 20 } }

/-- An opposing human fighter at x = 100. -/
def exPl : Player := mkPlayer 100 470 BodyType.ATHLETIC

/-- A fresh medium-difficulty bot (aggression 0.6, caution 0.4). -/
def exBmed : Bot := mkBot 400 470 BodyType.ATHLETIC Difficulty.medium

/-- An athletic fighter at x = 2, just inside the left arena bound,
walking left. -/
def exP4 : Player := { mkPlayer 2 470 BodyType.ATHLETIC with moving_left := true }

/-- A fighter mid-block with one cooldown tick left. -/
def exPbc1 : Player :=
  { mkPlayer 500 470 BodyType.HEAVY with
    blocking := true, block_direction := Dir.right, block_cooldown := 1 }

/-- A fighter on attack cooldown (12 ticks remaining). -/
def exPcd : Player :=
  { mkPlayer 500 470 BodyType.LEAN with attack_cooldown := 12 }

/-! Field-preservation lemmas for the phases of `Player.update` and for
`Player.take_damage`. -/

@[simp] theorem updateMove_params (p : Player) (sw : Rat) :
    (p.updateMove sw).params = p.params := by
  unfold Player.updateMove; dsimp only; split_ifs <;> rfl

@[simp] theorem updateMove_health (p : Player) (sw : Rat) :
    (p.updateMove sw).health = p.health := by
  unfold Player.updateMove; dsimp only; split_ifs <;> rfl

@[simp] theorem updateMove_max_health (p : Player) (sw : Rat) :
    (p.updateMove sw).max_health = p.max_health := by
  unfold Player.updateMove; dsimp only; split_ifs <;> rfl

@[simp] theorem updateMove_attacking (p : Player) (sw : Rat) :
    (p.updateMove sw).attacking = p.attacking := by
  unfold Player.updateMove; dsimp only; split_ifs <;> rfl

@[simp] theorem updateMove_attack_animation (p : Player) (sw : Rat) :
    (p.updateMove sw).attack_animation = p.attack_animation := by
  unfold Player.updateMove; dsimp only; split_ifs <;> rfl

@[simp] theorem updateMove_already_hit (p : Player) (sw : Rat) :
    (p.updateMove sw).already_hit_in_current_attack
      = p.already_hit_in_current_attack := by
  unfold Player.updateMove; dsimp only; split_ifs <;> rfl

@[simp] theorem updateMove_blocking (p : Player) (sw : Rat) :
    (p.updateMove sw).blocking = p.blocking := by
  unfold Player.updateMove; dsimp only; split_ifs <;> rfl

@[simp] theorem updateMove_block_cooldown (p : Player) (sw : Rat) :
    (p.updateMove sw).block_cooldown = p.block_cooldown := by
  unfold Player.updateMove; dsimp only; split_ifs <;> rfl

@[simp] theorem snapGround_x (p : Player) (gy : Rat) :
    (p.snapGround gy).x = p.x := rfl

@[simp] theorem snapGround_params (p : Player) (gy : Rat) :
    (p.snapGround gy).params = p.params := rfl

@[simp] theorem snapGround_health (p : Player) (gy : Rat) :
    (p.snapGround gy).health = p.health := rfl

@[simp] theorem snapGround_max_health (p : Player) (gy : Rat) :
    (p.snapGround gy).max_health = p.max_health := rfl

@[simp] theorem snapGround_attacking (p : Player) (gy : Rat) :
    (p.snapGround gy).attacking = p.attacking := rfl

@[simp] theorem snapGround_attack_animation (p : Player) (gy : Rat) :
    (p.snapGround gy).attack_animation = p.attack_animation := rfl

@[simp] theorem snapGround_already_hit (p : Player) (gy : Rat) :
    (p.snapGround gy).already_hit_in_current_attack
      = p.already_hit_in_current_attack := rfl

@[simp] theorem snapGround_blocking (p : Player) (gy : Rat) :
    (p.snapGround gy).blocking = p.blocking := rfl

@[simp] theorem snapGround_block_cooldown (p : Player) (gy : Rat) :
    (p.snapGround gy).block_cooldown = p.block_cooldown := rfl

@[simp] theorem updateAttackAnim_x (p : Player) :
    (p.updateAttackAnim).x = p.x := by
  unfold Player.updateAttackAnim; dsimp only; split_ifs <;> rfl

@[simp] theorem updateAttackAnim_params (p : Player) :
    (p.updateAttackAnim).params = p.params := by
  unfold Player.updateAttackAnim; dsimp only; split_ifs <;> rfl

@[simp] theorem updateAttackAnim_health (p : Player) :
    (p.updateAttackAnim).health = p.health := by
  unfold Player.updateAttackAnim; dsimp only; split_ifs <;> rfl

@[simp] theorem updateAttackAnim_max_health (p : Player) :
    (p.updateAttackAnim).max_health = p.max_health := by
  unfold Player.updateAttackAnim; dsimp only; split_ifs <;> rfl

@[simp] theorem updateAttackAnim_blocking (p : Player) :
    (p.updateAttackAnim).blocking = p.blocking := by
  unfold Player.updateAttackAnim; dsimp only; split_ifs <;> rfl

@[simp] theorem updateAttackAnim_block_cooldown (p : Player) :
    (p.updateAttackAnim).block_cooldown = p.block_cooldown := by
  unfold Player.updateAttackAnim; dsimp only; split_ifs <;> rfl

@[simp] theorem tickAttackCooldown_x (p : Player) :
    (p.tickAttackCooldown).x = p.x := by
  unfold Player.tickAttackCooldown; split_ifs <;> rfl

@[simp] theorem tickAttackCooldown_params (p : Player) :
    (p.tickAttackCooldown).params = p.params := by
  unfold Player.tickAttackCooldown; split_ifs <;> rfl

@[simp] theorem tickAttackCooldown_health (p : Player) :
    (p.tickAttackCooldown).health = p.health := by
  unfold Player.tickAttackCooldown; split_ifs <;> rfl

@[simp] theorem tickAttackCooldown_max_health (p : Player) :
    (p.tickAttackCooldown).max_health = p.max_health := by
  unfold Player.tickAttackCooldown; split_ifs <;> rfl

@[simp] theorem tickAttackCooldown_attacking (p : Player) :
    (p.tickAttackCooldown).attacking = p.attacking := by
  unfold Player.tickAttackCooldown; split_ifs <;> rfl

@[simp] theorem tickAttackCooldown_attack_animation (p : Player) :
    (p.tickAttackCooldown).attack_animation = p.attack_animation := by
  unfold Player.tickAttackCooldown; split_ifs <;> rfl

@[simp] theorem tickAttackCooldown_already_hit (p : Player) :
    (p.tickAttackCooldown).already_hit_in_current_attack
      = p.already_hit_in_current_attack := by
  unfold Player.tickAttackCooldown; split_ifs <;> rfl

@[simp] theorem tickAttackCooldown_blocking (p : Player) :
    (p.tickAttackCooldown).blocking = p.blocking := by
  unfold Player.tickAttackCooldown; split_ifs <;> rfl

@[simp] theorem tickAttackCooldown_block_cooldown (p : Player) :
    (p.tickAttackCooldown).block_cooldown = p.block_cooldown := by
  unfold Player.tickAttackCooldown; split_ifs <;> rfl

@[simp] theorem tickBlockCooldown_x (p : Player) :
    (p.tickBlockCooldown).x = p.x := by
  unfold Player.tickBlockCooldown; dsimp only; split_ifs <;> rfl

@[simp] theorem tickBlockCooldown_params (p : Player) :
    (p.tickBlockCooldown).params = p.params := by
  unfold Player.tickBlockCooldown; dsimp only; split_ifs <;> rfl

@[simp] theorem tickBlockCooldown_health (p : Player) :
    (p.tickBlockCooldown).health = p.health := by
  unfold Player.tickBlockCooldown; dsimp only; split_ifs <;> rfl

@[simp] theorem tickBlockCooldown_max_health (p : Player) :
    (p.tickBlockCooldown).max_health = p.max_health := by
  unfold Player.tickBlockCooldown; dsimp only; split_ifs <;> rfl

@[simp] theorem tickBlockCooldown_attacking (p : Player) :
    (p.tickBlockCooldown).attacking = p.attacking := by
  unfold Player.tickBlockCooldown; dsimp only; split_ifs <;> rfl

@[simp] theorem tickBlockCooldown_attack_animation (p : Player) :
    (p.tickBlockCooldown).attack_animation = p.attack_animation := by
  unfold Player.tickBlockCooldown; dsimp only; split_ifs <;> rfl

@[simp] theorem tickBlockCooldown_already_hit (p : Player) :
    (p.tickBlockCooldown).already_hit_in_current_attack
      = p.already_hit_in_current_attack := by
  unfold Player.tickBlockCooldown; dsimp only; split_ifs <;> rfl

@[simp] theorem reaimBlock_x (p : Player) (ox : Option Rat) :
    (p.reaimBlock ox).x = p.x := by
  unfold Player.reaimBlock; cases ox <;> dsimp only <;> split_ifs <;> rfl

@[simp] theorem reaimBlock_params (p : Player) (ox : Option Rat) :
    (p.reaimBlock ox).params = p.params := by
  unfold Player.reaimBlock; cases ox <;> dsimp only <;> split_ifs <;> rfl

@[simp] theorem reaimBlock_health (p : Player) (ox : Option Rat) :
    (p.reaimBlock ox).health = p.health := by
  unfold Player.reaimBlock; cases ox <;> dsimp only <;> split_ifs <;> rfl

@[simp] theorem reaimBlock_max_health (p : Player) (ox : Option Rat) :
    (p.reaimBlock ox).max_health = p.max_health := by
  unfold Player.reaimBlock; cases ox <;> dsimp only <;> split_ifs <;> rfl

@[simp] theorem reaimBlock_attacking (p : Player) (ox : Option Rat) :
    (p.reaimBlock ox).attacking = p.attacking := by
  unfold Player.reaimBlock; cases ox <;> dsimp only <;> split_ifs <;> rfl

@[simp] theorem reaimBlock_attack_animation (p : Player) (ox : Option Rat) :
    (p.reaimBlock ox).attack_animation = p.attack_animation := by
  unfold Player.reaimBlock; cases ox <;> dsimp only <;> split_ifs <;> rfl

@[simp] theorem reaimBlock_already_hit (p : Player) (ox : Option Rat) :
    (p.reaimBlock ox).already_hit_in_current_attack
      = p.already_hit_in_current_attack := by
  unfold Player.reaimBlock; cases ox <;> dsimp only <;> split_ifs <;> rfl

@[simp] theorem reaimBlock_blocking (p : Player) (ox : Option Rat) :
    (p.reaimBlock ox).blocking = p.blocking := by
  unfold Player.reaimBlock; cases ox <;> dsimp only <;> split_ifs <;> rfl

@[simp] theorem reaimBlock_block_cooldown (p : Player) (ox : Option Rat) :
    (p.reaimBlock ox).block_cooldown = p.block_cooldown := by
  unfold Player.reaimBlock; cases ox <;> dsimp only <;> split_ifs <;> rfl

@[simp] theorem take_damage_snd_attacking (p : Player) (d : Option Int) :
    (p.take_damage d).2.attacking = p.attacking := by
  unfold Player.take_damage; dsimp only; split_ifs <;> rfl

@[simp] theorem take_damage_snd_attack_animation (p : Player) (d : Option Int) :
    (p.take_damage d).2.attack_animation = p.attack_animation := by
  unfold Player.take_damage; dsimp only; split_ifs <;> rfl

@[simp] theorem take_damage_snd_already_hit (p : Player) (d : Option Int) :
    (p.take_damage d).2.already_hit_in_current_attack
      = p.already_hit_in_current_attack := by
  unfold Player.take_damage; dsimp only; split_ifs <;> rfl

@[simp] theorem take_damage_snd_blocking (p : Player) (d : Option Int) :
    (p.take_damage d).2.blocking = p.blocking := by
  unfold Player.take_damage; dsimp only; split_ifs <;> rfl

@[simp] theorem take_damage_snd_params (p : Player) (d : Option Int) :
    (p.take_damage d).2.params = p.params := by
  unfold Player.take_damage; dsimp only; split_ifs <;> rfl

theorem take_damage_of_not_blocking (p : Player) (d : Option Int)
    (h : p.blocking = false) :
    p.take_damage d
      = (true, { p with health := max 0 (p.health - d.getD p.params.damage),
                        animation_state := AnimationState.hurt }) := by
  unfold Player.take_damage
  rw [if_pos (by simp [h])]

theorem take_damage_of_blocking (p : Player) (d : Option Int)
    (h : p.blocking = true) :
    p.take_damage d = (false, p) := by
  unfold Player.take_damage
  rw [if_neg (by simp [h])]

/-! Behaviour lemmas for the update phases and the composed
`Player.update`. -/

theorem updateAttackAnim_of_mid (p : Player) (h1 : p.attacking = true)
    (h2 : 2 ≤ p.attack_animation) :
    (p.updateAttackAnim).attacking = true ∧
    (p.updateAttackAnim).attack_animation = p.attack_animation - 1 ∧
    (p.updateAttackAnim).already_hit_in_current_attack
      = p.already_hit_in_current_attack := by
  unfold Player.updateAttackAnim
  dsimp only
  rw [if_pos ⟨h1, by omega⟩, if_neg (by simp; omega)]
  exact ⟨h1, rfl, rfl⟩

theorem tickBlockCooldown_blocking_eq (p : Player) :
    (p.tickBlockCooldown).blocking = false ↔
      (p.blocking = false ∨ p.block_cooldown = 1) := by
  unfold Player.tickBlockCooldown
  dsimp only
  split_ifs <;> simp <;> omega

theorem tickBlockCooldown_bc_nonpos (p : Player)
    (h : p.block_cooldown ≤ 0) :
    (p.tickBlockCooldown).block_cooldown = p.block_cooldown := by
  unfold Player.tickBlockCooldown
  rw [if_neg (by omega)]

@[simp] theorem update_params (p : Player) (gy sw : Rat) (ox : Option Rat) :
    (p.update gy sw ox).params = p.params := by
  unfold Player.update; simp

@[simp] theorem update_health (p : Player) (gy sw : Rat) (ox : Option Rat) :
    (p.update gy sw ox).health = p.health := by
  unfold Player.update; simp

@[simp] theorem update_max_health (p : Player) (gy sw : Rat) (ox : Option Rat) :
    (p.update gy sw ox).max_health = p.max_health := by
  unfold Player.update; simp

theorem update_blocking_eq (p : Player) (gy sw : Rat) (ox : Option Rat) :
    (p.update gy sw ox).blocking = false ↔
      (p.blocking = false ∨ p.block_cooldown = 1) := by
  unfold Player.update
  rw [reaimBlock_blocking, tickBlockCooldown_blocking_eq]
  simp

theorem update_blocking_of_false (p : Player) (gy sw : Rat) (ox : Option Rat)
    (h : p.blocking = false) :
    (p.update gy sw ox).blocking = false :=
  (update_blocking_eq p gy sw ox).mpr (Or.inl h)

theorem update_bc_nonpos (p : Player) (gy sw : Rat) (ox : Option Rat)
    (h : p.block_cooldown ≤ 0) :
    (p.update gy sw ox).block_cooldown = p.block_cooldown := by
  unfold Player.update
  rw [reaimBlock_block_cooldown, tickBlockCooldown_bc_nonpos _ (by simpa using h)]
  simp

theorem update_of_mid_swing (p : Player) (gy sw : Rat) (ox : Option Rat)
    (h1 : p.attacking = true) (h2 : 2 ≤ p.attack_animation) :
    (p.update gy sw ox).attacking = true ∧
    (p.update gy sw ox).attack_animation = p.attack_animation - 1 ∧
    (p.update gy sw ox).already_hit_in_current_attack
      = p.already_hit_in_current_attack := by
  unfold Player.update
  have h := updateAttackAnim_of_mid ((p.updateMove sw).snapGround gy)
    (by simp [h1]) (by simpa using h2)
  simp only [reaimBlock_attacking, tickBlockCooldown_attacking,
    tickAttackCooldown_attacking, reaimBlock_attack_animation,
    tickBlockCooldown_attack_animation, tickAttackCooldown_attack_animation,
    reaimBlock_already_hit, tickBlockCooldown_already_hit,
    tickAttackCooldown_already_hit]
  refine ⟨h.1, ?_, ?_⟩
  · rw [h.2.1]; simp
  · rw [h.2.2]; simp

theorem update_x_eq (p : Player) (gy sw : Rat) (ox : Option Rat) :
    (p.update gy sw ox).x = (p.updateMove sw).x := by
  unfold Player.update
  rw [reaimBlock_x, tickBlockCooldown_x, tickAttackCooldown_x,
    updateAttackAnim_x, snapGround_x]

@[simp] theorem move_left_blocking (p : Player) :
    (p.move_left).blocking = p.blocking := rfl

@[simp] theorem move_right_blocking (p : Player) :
    (p.move_right).blocking = p.blocking := rfl

@[simp] theorem heal_blocking (p : Player) (a : Int) :
    (p.heal a).blocking = p.blocking := rfl

@[simp] theorem stop_moving_blocking (p : Player) :
    (p.stop_moving).blocking = p.blocking := by
  unfold Player.stop_moving; dsimp only; split_ifs <;> rfl

@[simp] theorem attack_blocking (p : Player) (ox : Rat) :
    (p.attack ox).blocking = p.blocking := by
  unfold Player.attack Player.determine_attack_hand
  dsimp only; split_ifs <;> rfl

theorem block_blocking_of_true (p : Player) (ox : Rat)
    (h : p.blocking = true) : (p.block ox).blocking = true := by
  unfold Player.block
  dsimp only
  split_ifs <;> first | rfl | exact h

/-! Lemmas about the resolver. -/

theorem check_block_of_not_blocking (d a : Player) (h : d.blocking = false) :
    check_block d a = false := by
  unfold check_block
  rw [if_pos (by simp [h])]

theorem resolveAttack_skip (atk dfn : Player)
    (h : atk.already_hit_in_current_attack = true) :
    resolveAttack atk dfn = (atk, dfn) := by
  unfold resolveAttack
  rw [if_neg (by simp [h])]

theorem resolveAttack_hit (atk dfn : Player)
    (h1 : atk.attacking = true) (h2 : atk.already_hit_in_current_attack = false)
    (hcol : Rect.collides atk.get_attack_rect dfn.get_rect)
    (hb : dfn.blocking = false) :
    resolveAttack atk dfn
      = ({ atk with already_hit_in_current_attack := true },
         { dfn with health := max 0 (dfn.health - dfn.params.damage),
                    animation_state := AnimationState.hurt }) := by
  unfold resolveAttack
  rw [if_pos ⟨h1, by simp [h2], hcol⟩,
    if_neg (by simp [check_block_of_not_blocking _ _ hb]),
    take_damage_of_not_blocking _ _ hb]
  simp

theorem resolveAttack_dfn_of_blocking (a d : Player) (h : d.blocking = true) :
    (resolveAttack a d).2 = d := by
  unfold resolveAttack
  dsimp only
  rw [take_damage_of_blocking _ _ h]
  split_ifs <;> rfl

theorem resolveAttack_atk_health (a d : Player) :
    (resolveAttack a d).1.health = a.health := by
  unfold resolveAttack
  dsimp only
  split_ifs <;> rfl

theorem resolveAttack_atk_blocking (a d : Player) :
    (resolveAttack a d).1.blocking = a.blocking := by
  unfold resolveAttack
  dsimp only
  split_ifs <;> rfl

theorem resolveAttack_atk_params (a d : Player) :
    (resolveAttack a d).1.params = a.params := by
  unfold resolveAttack
  dsimp only
  split_ifs <;> rfl

theorem resolveAttack_dfn_fields (a d : Player) :
    (resolveAttack a d).2.attacking = d.attacking ∧
    (resolveAttack a d).2.attack_animation = d.attack_animation ∧
    (resolveAttack a d).2.already_hit_in_current_attack
      = d.already_hit_in_current_attack ∧
    (resolveAttack a d).2.blocking = d.blocking ∧
    (resolveAttack a d).2.params = d.params := by
  unfold resolveAttack
  dsimp only
  split_ifs <;> simp

theorem check_collisions_skip (p1 p2 : Player)
    (h : p1.already_hit_in_current_attack = true) (hb : p2.blocking = false) :
    (check_collisions p1 p2).1.attacking = p1.attacking ∧
    (check_collisions p1 p2).1.attack_animation = p1.attack_animation ∧
    (check_collisions p1 p2).1.already_hit_in_current_attack = true ∧
    (check_collisions p1 p2).2.blocking = false ∧
    (check_collisions p1 p2).2.health = p2.health ∧
    (check_collisions p1 p2).2.params = p2.params := by
  unfold check_collisions
  dsimp only
  rw [resolveAttack_skip _ _ h]
  dsimp only
  obtain ⟨d1, d2, d3, d4, d5⟩ := resolveAttack_dfn_fields p2 p1
  refine ⟨d1, d2, by rw [d3, h], ?_, ?_, ?_⟩
  · rw [resolveAttack_atk_blocking, hb]
  · exact resolveAttack_atk_health _ _
  · exact resolveAttack_atk_params _ _

theorem check_collisions_first_hit (p1 p2 : Player)
    (h1 : p1.attacking = true) (h2 : p1.already_hit_in_current_attack = false)
    (hcol : Rect.collides p1.get_attack_rect p2.get_rect)
    (hb : p2.blocking = false) :
    (check_collisions p1 p2).1.attacking = p1.attacking ∧
    (check_collisions p1 p2).1.attack_animation = p1.attack_animation ∧
    (check_collisions p1 p2).1.already_hit_in_current_attack = true ∧
    (check_collisions p1 p2).2.blocking = false ∧
    (check_collisions p1 p2).2.health = max 0 (p2.health - p2.params.damage) ∧
    (check_collisions p1 p2).2.params = p2.params := by
  unfold check_collisions
  dsimp only
  rw [resolveAttack_hit _ _ h1 h2 hcol hb]
  dsimp only
  obtain ⟨d1, d2, d3, d4, d5⟩ := resolveAttack_dfn_fields
    { p2 with health := max 0 (p2.health - p2.params.damage),
              animation_state := AnimationState.hurt }
    { p1 with already_hit_in_current_attack := true }
  refine ⟨by rw [d1], by rw [d2], by rw [d3], ?_, ?_, ?_⟩
  · rw [resolveAttack_atk_blocking]; exact hb
  · rw [resolveAttack_atk_health]
  · rw [resolveAttack_atk_params]

theorem check_collisions_dfn_health_of_blocking (a d : Player)
    (h : d.blocking = true) :
    (check_collisions a d).2.health = d.health := by
  unfold check_collisions
  dsimp only
  rw [resolveAttack_dfn_of_blocking _ _ h]
  exact resolveAttack_atk_health _ _

/-- `pvp_tick` written as one application of `check_collisions`. -/
theorem pvp_tick_eq (gy sw : Rat) (st : Player × Player) :
    pvp_tick gy sw st
      = check_collisions (st.1.update gy sw (some st.2.x))
          (st.2.update gy sw (some (st.1.update gy sw (some st.2.x)).x)) := rfl

/-! The claims. -/

/-- C1 (amended): `check_block` succeeds exactly when the defender is
blocking AND the guarded side matches the attacking hand with the
attacker on the matching side of the defender; however, when the block
check fails while the defender is nonetheless blocking, `take_damage`
still negates the damage (it checks `blocking`, not the direction), so a
wrong-side block never lets damage land: while the defender is blocking
at all, the resolver never changes its health. -/
theorem block_side_arbitration (a d : Player) :
    (check_block d a = true ↔
      (d.blocking = true ∧
        (if a.attacking_with_right = true
         then d.block_direction = Dir.right ∧ a.x < d.x
         else d.block_direction = Dir.left ∧ d.x < a.x))) ∧
    (d.blocking = true → (check_collisions a d).2.health = d.health) := by
  refine ⟨?_, fun h => check_collisions_dfn_health_of_blocking a d h⟩
  unfold check_block
  split_ifs with h1 h2 h3 h3 <;> simp_all

/-- C1 witness: the arbitration rule and the no-damage-while-blocking
rule evaluated at the concrete attacker/defender pair. -/
theorem block_side_arbitration_witness :
    (check_block exD exA = true ↔
      (exD.blocking = true ∧
        (if exA.attacking_with_right = true
         then exD.block_direction = Dir.right ∧ exA.x < exD.x
         else exD.block_direction = Dir.left ∧ exD.x < exA.x))) ∧
    (check_collisions exA exD).2.health = exD.health :=
  ⟨(block_side_arbitration exA exD).1,
   (block_side_arbitration exA exD).2 rfl⟩

/-- C1 counterexample: an athletic attacker at x = 140 mid right-hand
swing whose attack rectangle overlaps the defender at x = 200; the
defender blocks on the left (exactly the claim's scenario, shifted into
collision range).  `check_block` fails as the claim says, but no damage
lands and the swing is not even consumed: `check_collisions` returns
both fighters completely unchanged, refuting "the block fails and damage
lands". -/
theorem wrong_side_block_still_negates_damage :
    exD.blocking = true ∧ exD.block_direction = Dir.left ∧
    exA.attacking_with_right = true ∧ exA.attacking = true ∧
    exA.already_hit_in_current_attack = false ∧
    check_block exD exA = false ∧
    Rect.collides exA.get_attack_rect exD.get_rect ∧
    check_collisions exA exD = (exA, exD) := by
  have hcb : check_block exD exA = false := by
    unfold check_block
    rw [if_neg (by simp [exD, mkPlayer]),
      if_pos (show exA.attacking_with_right = true from rfl),
      if_neg (by simp [exD, mkPlayer])]
  have hcol : Rect.collides exA.get_attack_rect exD.get_rect := by
    norm_num [exA, exD, mkPlayer, PARAMETERS, Player.get_attack_rect,
      Player.get_rect, Rect.collides, Player.right_lower_pos,
      Player.left_lower_pos, Player.attack_strength, Player.attack_progress,
      Player.right_shoulder_x, Player.left_shoulder_x, Player.shoulder_y,
      Player.center_x, abs_of_nonneg]
  refine ⟨rfl, rfl, rfl, rfl, rfl, hcb, hcol, ?_⟩
  unfold check_collisions
  dsimp only
  have hs : resolveAttack exA exD = (exA, exD) := by
    unfold resolveAttack
    rw [if_pos ⟨rfl, by simp [exA, mkPlayer], hcol⟩, if_neg (by simp [hcb]),
      take_damage_of_blocking _ _ rfl]
    simp
  rw [hs]
  dsimp only
  unfold resolveAttack
  rw [if_neg (by simp [exD, mkPlayer])]

/-- The per-swing invariant behind C2: from the tick after an `attack()`
call whose first resolver check collides against a non-blocking
defender, the attacker's flag `already_hit_in_current_attack` stays set,
the swing counts down, the defender stays non-blocking and its health
shows exactly one damage application, for every tick 1..14 of the swing
window. -/
theorem swing_invariant (gy sw : Rat) (p1 p2 : Player)
    (ha : p1.attacking = true) (h15 : p1.attack_animation = 15)
    (hh : p1.already_hit_in_current_attack = false)
    (hb : p2.blocking = false)
    (hcol : Rect.collides (p1.update gy sw (some p2.x)).get_attack_rect
      (p2.update gy sw (some (p1.update gy sw (some p2.x)).x)).get_rect) :
    ∀ N : ℕ, 1 ≤ N → N ≤ 14 →
      ((pvp_tick gy sw)^[N] (p1, p2)).1.attacking = true ∧
      ((pvp_tick gy sw)^[N] (p1, p2)).1.attack_animation = 15 - (N : Int) ∧
      ((pvp_tick gy sw)^[N] (p1, p2)).1.already_hit_in_current_attack = true ∧
      ((pvp_tick gy sw)^[N] (p1, p2)).2.blocking = false ∧
      ((pvp_tick gy sw)^[N] (p1, p2)).2.health
        = max 0 (p2.health - p2.params.damage) := by
  intro N
  induction N with
  | zero => omega
  | succ n ih =>
    intro _ hle
    rcases Nat.eq_zero_or_pos n with hn | hn
    · subst hn
      rw [Function.iterate_one, pvp_tick_eq]
      have hu := update_of_mid_swing p1 gy sw (some p2.x) ha (by omega)
      have hq2b : (p2.update gy sw
          (some (p1.update gy sw (some p2.x)).x)).blocking = false :=
        update_blocking_of_false _ _ _ _ hb
      have hfirst := check_collisions_first_hit
        (p1.update gy sw (some p2.x))
        (p2.update gy sw (some (p1.update gy sw (some p2.x)).x))
        hu.1 (by rw [hu.2.2, hh]) hcol hq2b
      refine ⟨by rw [hfirst.1, hu.1], ?_, hfirst.2.2.1, hfirst.2.2.2.1, ?_⟩
      · rw [hfirst.2.1, hu.2.1, h15]
        norm_num
      · rw [hfirst.2.2.2.2.1, update_health, update_params]
    · have ihh := ih (by omega) (by omega)
      rw [Function.iterate_succ_apply', pvp_tick_eq]
      obtain ⟨hA, hAn, hH, hB, hHp⟩ := ihh
      have hmid := update_of_mid_swing ((pvp_tick gy sw)^[n] (p1, p2)).1 gy sw
        (some ((pvp_tick gy sw)^[n] (p1, p2)).2.x) hA (by rw [hAn]; omega)
      have hq2b : (((pvp_tick gy sw)^[n] (p1, p2)).2.update gy sw
          (some ((((pvp_tick gy sw)^[n] (p1, p2)).1.update gy sw
            (some ((pvp_tick gy sw)^[n] (p1, p2)).2.x))).x)).blocking = false :=
        update_blocking_of_false _ _ _ _ hB
      have hskip := check_collisions_skip _ _
        (by rw [hmid.2.2, hH]) hq2b
      refine ⟨by rw [hskip.1, hmid.1], ?_, hskip.2.2.1, hskip.2.2.2.1, ?_⟩
      · rw [hskip.2.1, hmid.2.1, hAn]
        push_cast
        ring
      · rw [hskip.2.2.2.2.1, update_health, hHp]

/-- C2: a single `attack()` whose swing window overlaps N resolver ticks
(1 ≤ N ≤ 14), colliding from the first tick, against a defender that
never blocks, reduces the defender's health exactly once — by one
damage amount, not N times — because `already_hit_in_current_attack`
stays set for the rest of the swing and the resolver skips an attacker
with that flag. -/
theorem single_swing_damages_once (gy sw : Rat) (p1 p2 : Player) (N : ℕ)
    (ha : p1.attacking = true) (h15 : p1.attack_animation = 15)
    (hh : p1.already_hit_in_current_attack = false)
    (hb : p2.blocking = false)
    (hcol : Rect.collides (p1.update gy sw (some p2.x)).get_attack_rect
      (p2.update gy sw (some (p1.update gy sw (some p2.x)).x)).get_rect)
    (hN1 : 1 ≤ N) (hN : N ≤ 14) :
    ((pvp_tick gy sw)^[N] (p1, p2)).2.health
      = max 0 (p2.health - p2.params.damage) ∧
    ((pvp_tick gy sw)^[N] (p1, p2)).1.already_hit_in_current_attack = true := by
  obtain ⟨_, _, h3, _, h5⟩ :=
    swing_invariant gy sw p1 p2 ha h15 hh hb hcol N hN1 hN
  exact ⟨h5, h3⟩

/-- C2 witness: after 3 ticks of the swing started by the athletic
fighter at x = 300 against the non-blocking defender at x = 360, the
defender has lost exactly one damage amount. -/
theorem single_swing_damages_once_witness :
    ((pvp_tick 600 1200)^[3] (exAtk300, exDef360)).2.health
      = max 0 (exDef360.health - exDef360.params.damage) ∧
    ((pvp_tick 600 1200)^[3]
      (exAtk300, exDef360)).1.already_hit_in_current_attack = true := by
  have hcol : Rect.collides
      ((exAtk300.update 600 1200 (some exDef360.x)).get_attack_rect)
      ((exDef360.update 600 1200
        (some (exAtk300.update 600 1200 (some exDef360.x)).x)).get_rect) := by
    norm_num [exAtk300, exDef360, mkPlayer, PARAMETERS, Player.attack,
      Player.determine_attack_hand, Player.update, Player.updateMove,
      Player.snapGround, Player.updateAttackAnim, Player.tickAttackCooldown,
      Player.tickBlockCooldown, Player.reaimBlock, Player.get_attack_rect,
      Player.get_rect, Rect.collides, Player.right_lower_pos,
      Player.left_lower_pos, Player.attack_strength, Player.attack_progress,
      Player.right_shoulder_x, Player.left_shoulder_x, Player.shoulder_y,
      Player.center_x, abs_of_nonneg]
  exact single_swing_damages_once 600 1200 exAtk300 exDef360 3
    (by norm_num [exAtk300, mkPlayer, PARAMETERS, Player.attack,
      Player.determine_attack_hand, Player.center_x])
    (by norm_num [exAtk300, mkPlayer, PARAMETERS, Player.attack,
      Player.determine_attack_hand, Player.center_x])
    (by norm_num [exAtk300, mkPlayer, PARAMETERS, Player.attack,
      Player.determine_attack_hand, Player.center_x])
    rfl hcol (by norm_num) (by norm_num)

/-- C3: `take_damage` with the fighter blocking is a no-op returning
false; otherwise health becomes `max 0 (health - amount)` (the missing
argument defaulting to the fighter's own archetype damage) and the call
returns true; the result is never negative, and once health is 0
further non-negative damage leaves it at 0 while still returning true
when not blocking. -/
theorem take_damage_contract (p : Player) (d : Option Int) :
    (p.blocking = true → p.take_damage d = (false, p)) ∧
    (p.blocking = false →
      (p.take_damage d).1 = true ∧
      (p.take_damage d).2.health = max 0 (p.health - d.getD p.params.damage) ∧
      0 ≤ (p.take_damage d).2.health) ∧
    (p.blocking = false → p.health = 0 → 0 ≤ d.getD p.params.damage →
      (p.take_damage d).2.health = 0 ∧ (p.take_damage d).1 = true) := by
  refine ⟨fun h => take_damage_of_blocking p d h, fun h => ?_, fun h h0 hd => ?_⟩
  · rw [take_damage_of_not_blocking p d h]
    exact ⟨rfl, rfl, le_max_left _ _⟩
  · rw [take_damage_of_not_blocking p d h]
    refine ⟨?_, rfl⟩
    dsimp only
    rw [h0]
    exact max_eq_left (by omega)

/-- C3 witness: a blocking defender negates a 7-point hit; the same hit
on a non-blocking fighter lands with the health floor formula. -/
theorem take_damage_contract_witness :
    exD.take_damage (some 7) = (false, exD) ∧
    (exDef360.take_damage (some 7)).1 = true ∧
    (exDef360.take_damage (some 7)).2.health = max 0 (exDef360.health - 7) :=
  ⟨(take_damage_contract exD (some 7)).1 (by decide),
   ((take_damage_contract exDef360 (some 7)).2.1 (by decide)).1,
   ((take_damage_contract exDef360 (some 7)).2.1 (by decide)).2.1⟩

/-- C4 (amended): the movement guards test the pre-move position rather
than clamping the result, so a tick can carry the fighter up to `speed`
beyond the arena bounds; starting inside `[0, arena_width - width]` the
position after `update` is only guaranteed to lie in
`[-speed, arena_width - width + speed]`. -/
theorem update_x_overshoot_bound (p : Player) (gy sw : Rat) (ox : Option Rat)
    (hs : 0 ≤ p.params.speed) (h0 : 0 ≤ p.x)
    (h1 : p.x ≤ sw - (p.params.width : Rat)) :
    -p.params.speed ≤ (p.update gy sw ox).x ∧
    (p.update gy sw ox).x ≤ sw - (p.params.width : Rat) + p.params.speed := by
  rw [update_x_eq]
  unfold Player.updateMove
  dsimp only
  split_ifs with hL hR hR
  · exact ⟨by dsimp only; linarith, by dsimp only; linarith⟩
  · exact ⟨by dsimp only; linarith, by dsimp only; linarith⟩
  · exact ⟨by dsimp only; linarith, by dsimp only; linarith⟩
  · exact ⟨by linarith, by linarith⟩

/-- C4 witness: the overshoot bound evaluated for the athletic fighter
standing at x = 360 inside a 1200-wide arena. -/
theorem update_x_overshoot_bound_witness :
    -exDef360.params.speed ≤ (exDef360.update 600 1200 none).x ∧
    (exDef360.update 600 1200 none).x
      ≤ 1200 - (exDef360.params.width : Rat) + exDef360.params.speed :=
  update_x_overshoot_bound exDef360 600 1200 none
    (by norm_num [exDef360, mkPlayer, PARAMETERS])
    (by norm_num [exDef360, mkPlayer, PARAMETERS])
    (by norm_num [exDef360, mkPlayer, PARAMETERS])

/-- C4 counterexample: an athletic fighter (speed 5.5) at x = 2 — inside
the arena bounds [0, 748] of an 800-wide arena — walking left ends the
tick at x = -3.5, outside the bounds, refuting the claim that the
position is clamped to `[0, arena_width - width]`. -/
theorem update_x_escapes_bounds :
    0 ≤ exP4.x ∧ exP4.x ≤ 800 - (exP4.params.width : Rat) ∧
    (exP4.update 600 800 none).x < 0 := by
  refine ⟨by norm_num [exP4, mkPlayer, PARAMETERS],
    by norm_num [exP4, mkPlayer, PARAMETERS], ?_⟩
  rw [update_x_eq]
  norm_num [exP4, mkPlayer, PARAMETERS, Player.updateMove]

/-- C5 (amended): for the `Player` operation set the claimed lifecycle
holds — `block()` is a no-op while the block cooldown runs, a
successful `block()` sets `blocking` and a 40-tick cooldown, and
`blocking` turns false exactly at the `update()` on which the cooldown
reaches 0 (i.e. when it was 1) and under no other `Player` operation;
but it does NOT extend to bot-controlled fighters, whose
`make_decision` clears `blocking` unconditionally (see the
counterexample). -/
theorem block_lifecycle (p : Player) (ox gy sw : Rat) (oxu : Option Rat)
    (op : POp) :
    (0 < p.block_cooldown → p.block ox = p) ∧
    (p.block_cooldown ≤ 0 →
      (p.block ox).blocking = true ∧ (p.block ox).block_cooldown = 40) ∧
    ((p.update gy sw oxu).blocking = false ↔
      (p.blocking = false ∨ p.block_cooldown = 1)) ∧
    (p.blocking = true → (applyOp p op).blocking = false →
      (∃ g s o, op = POp.update g s o) ∧ p.block_cooldown = 1) := by
  refine ⟨fun h => ?_, fun h => ?_, update_blocking_eq p gy sw oxu,
    fun hb hf => ?_⟩
  · unfold Player.block; rw [if_neg (by omega)]
  · unfold Player.block
    rw [if_pos h]
    dsimp only
    exact ⟨rfl, rfl⟩
  · cases op with
    | update g s o =>
        rcases (update_blocking_eq p g s o).mp hf with h1 | h1
        · rw [hb] at h1; cases h1
        · exact ⟨⟨g, s, o, rfl⟩, h1⟩
    | moveLeft =>
        rw [show applyOp p POp.moveLeft = p.move_left from rfl,
          move_left_blocking, hb] at hf
        cases hf
    | moveRight =>
        rw [show applyOp p POp.moveRight = p.move_right from rfl,
          move_right_blocking, hb] at hf
        cases hf
    | stopMoving =>
        rw [show applyOp p POp.stopMoving = p.stop_moving from rfl,
          stop_moving_blocking, hb] at hf
        cases hf
    | attack o =>
        rw [show applyOp p (POp.attack o) = p.attack o from rfl,
          attack_blocking, hb] at hf
        cases hf
    | block o =>
        rw [show applyOp p (POp.block o) = p.block o from rfl,
          block_blocking_of_true p o hb] at hf
        cases hf
    | takeDamage d =>
        rw [show applyOp p (POp.takeDamage d) = (p.take_damage d).2 from rfl,
          take_damage_snd_blocking, hb] at hf
        cases hf
    | heal a =>
        rw [show applyOp p (POp.heal a) = p.heal a from rfl,
          heal_blocking, hb] at hf
        cases hf

/-- C5 witness: the lifecycle rules evaluated concretely — a fighter
one tick from block expiry rejects a new `block()`, a free fighter's
`block()` starts the 40-tick window, and the expiry tick clears
`blocking`. -/
theorem block_lifecycle_witness :
    exPbc1.block 100 = exPbc1 ∧
    (exDef360.block 100).blocking = true ∧
    (exDef360.block 100).block_cooldown = 40 ∧
    ((exPbc1.update 600 800 none).blocking = false ↔
      (exPbc1.blocking = false ∨ exPbc1.block_cooldown = 1)) ∧
    exPbc1.block_cooldown = 1 := by
  have hA := block_lifecycle exPbc1 100 600 800 none (POp.update 600 800 none)
  have hB := block_lifecycle exDef360 100 600 800 none POp.moveLeft
  have hup : (applyOp exPbc1 (POp.update 600 800 none)).blocking = false := by
    rw [show applyOp exPbc1 (POp.update 600 800 none)
      = exPbc1.update 600 800 none from rfl]
    exact (update_blocking_eq exPbc1 600 800 none).mpr (Or.inr rfl)
  refine ⟨hA.1 (by decide), (hB.2.1 (by decide)).1, (hB.2.1 (by decide)).2,
    hA.2.2.1, (hA.2.2.2 rfl hup).2⟩

/-- C5 counterexample: a bot one tick into a 40-tick block
(block_cooldown = 39) whose decision cooldown has expired: one
`make_decision` call turns `blocking` off while the block cooldown is
still 39, refuting "at no other point does blocking turn false while
block_cooldown_ticks > 0" for bot-controlled fighters. -/
theorem bot_clears_block_mid_cooldown :
    exB5.p.blocking = true ∧ exB5.p.block_cooldown = 39 ∧
    (exB5.make_decision exPl 1200 [0.99, 0.99] 25).p.blocking = false ∧
    (exB5.make_decision exPl 1200 [0.99, 0.99] 25).p.block_cooldown = 39 := by
  refine ⟨rfl, rfl, ?_, ?_⟩ <;>
    norm_num [exB5, exPl, mkBot, mkPlayer, PARAMETERS, difficultySettings,
      Bot.make_decision, decideBand, draw, moveToward, Bot.adaptHealth,
      Player.stop_moving, Player.block, Player.attack, Player.move_left,
      Player.move_right, Player.center_x, Player.determine_attack_hand,
      abs_of_nonneg]

/-- C6: while the attack cooldown is still positive, `attack()` changes
nothing at all — the whole fighter state, in particular `attacking`,
`attack_animation`, `attack_cooldown`, `attacking_with_right`,
`block_direction` and `already_hit_in_current_attack`, is exactly as
before, so one cooldown period admits exactly one attack window. -/
theorem attack_noop_on_cooldown (p : Player) (ox : Rat)
    (h : 0 < p.attack_cooldown) : p.attack ox = p := by
  unfold Player.attack
  rw [if_neg (by omega)]

/-- C6 witness: a fighter 12 ticks into its attack cooldown is untouched
by a second `attack()` call. -/
theorem attack_noop_on_cooldown_witness : exPcd.attack 100 = exPcd :=
  attack_noop_on_cooldown exPcd 100 (by decide)

/-- C7: the resolver calls `take_damage()` with no argument, which
defaults to the DEFENDER's own archetype damage: an unblocked colliding
hit — even by an attacker with a strictly smaller archetype damage —
reduces the defender's health by the defender's damage value. -/
theorem resolver_applies_defender_damage (p1 p2 : Player)
    (h1 : p1.attacking = true) (h2 : p1.already_hit_in_current_attack = false)
    (hcol : Rect.collides p1.get_attack_rect p2.get_rect)
    (hb : p2.blocking = false)
    (_hlt : p1.params.damage < p2.params.damage) :
    (check_collisions p1 p2).2.health
      = max 0 (p2.health - p2.params.damage) :=
  (check_collisions_first_hit p1 p2 h1 h2 hcol hb).2.2.2.2.1

/-- C7 witness: a ninja (damage 8) landing on a sumo (damage 15) costs
the sumo 15 health, its own archetype damage. -/
theorem resolver_applies_defender_damage_witness :
    (check_collisions exN exS).2.health = max 0 (exS.health - exS.params.damage) :=
  resolver_applies_defender_damage exN exS rfl rfl
    (by norm_num [exN, exS, mkPlayer, PARAMETERS, Player.get_attack_rect,
      Player.get_rect, Rect.collides, Player.right_lower_pos,
      Player.left_lower_pos, Player.attack_strength, Player.attack_progress,
      Player.right_shoulder_x, Player.left_shoulder_x, Player.shoulder_y,
      Player.center_x, abs_of_nonneg])
    rfl (by decide)

/-- C8: with the attack cooldown expired, `attack(opponent_x)` picks the
right hand exactly when `opponent_x` is not left of the fighter's
horizontal center `x + width // 2`, and sets `block_direction` to the
hand's opposite side. -/
theorem attack_hand_selection (p : Player) (ox : Rat)
    (h : p.attack_cooldown ≤ 0) :
    ((p.attack ox).attacking_with_right = true ↔ p.center_x ≤ ox) ∧
    ((p.attack ox).attacking_with_right = true →
      (p.attack ox).block_direction = Dir.left) ∧
    ((p.attack ox).attacking_with_right = false →
      (p.attack ox).block_direction = Dir.right) := by
  unfold Player.attack Player.determine_attack_hand
  rw [if_pos h]
  dsimp only
  by_cases hx : ox < p.center_x
  · rw [if_pos hx]
    dsimp only
    rw [if_neg (by simp)]
    simp [not_le.mpr hx]
  · rw [if_neg hx]
    dsimp only
    rw [if_pos (by simp)]
    simp [not_lt.mp hx]

/-- C8 witness: the fighter at x = 360 attacking an opponent at x = 500
(to its right) picks the right hand and guards left. -/
theorem attack_hand_selection_witness :
    ((exDef360.attack 500).attacking_with_right = true
      ↔ exDef360.center_x ≤ 500) ∧
    ((exDef360.attack 500).attacking_with_right = true →
      (exDef360.attack 500).block_direction = Dir.left) ∧
    ((exDef360.attack 500).attacking_with_right = false →
      (exDef360.attack 500).block_direction = Dir.right) :=
  attack_hand_selection exDef360 500 (by decide)

/-- C9 (amended): aggression and caution always stay within [0, 1], and
the health adaptation is monotone — aggression non-decreasing, caution
non-increasing — only as long as aggression is at most the 0.8 band cap
and caution at least the 0.2 band floor (true for the easy/medium/hard
presets); the insane preset (aggression 0.9, caution 0.1) violates
monotonicity (see the counterexample). -/
theorem bot_adaptation_behaviour (b : Bot) (pl : Player) (sw : Rat)
    (rnds : List Rat) (cd : Int)
    (ha0 : 0 ≤ b.aggression) (ha1 : b.aggression ≤ 1)
    (hc0 : 0 ≤ b.caution) (hc1 : b.caution ≤ 1) :
    (0 ≤ (b.make_decision pl sw rnds cd).aggression ∧
     (b.make_decision pl sw rnds cd).aggression ≤ 1) ∧
    (0 ≤ (b.make_decision pl sw rnds cd).caution ∧
     (b.make_decision pl sw rnds cd).caution ≤ 1) ∧
    (b.aggression ≤ 0.8 →
      b.aggression ≤ (b.make_decision pl sw rnds cd).aggression) ∧
    (0.2 ≤ b.caution →
      (b.make_decision pl sw rnds cd).caution ≤ b.caution) := by
  unfold Bot.make_decision
  by_cases hdc : 0 < b.decision_cooldown
  · rw [if_pos hdc]
    exact ⟨⟨ha0, ha1⟩, ⟨hc0, hc1⟩, fun _ => le_refl _, fun _ => le_refl _⟩
  · rw [if_neg hdc]
    dsimp only
    unfold Bot.adaptHealth
    dsimp only
    split_ifs with h1 h2
    · refine ⟨⟨?_, ?_⟩, ⟨?_, ?_⟩, fun h => ?_, fun h => ?_⟩
      · exact le_min (by norm_num) (by linarith)
      · exact (min_le_left _ _).trans (by norm_num)
      · exact (by norm_num : (0:Rat) ≤ 0.05).trans (le_max_left _ _)
      · exact max_le (by norm_num) (by linarith)
      · exact le_min (by linarith) (by linarith)
      · exact max_le (by linarith) (by linarith)
    · refine ⟨⟨?_, ?_⟩, ⟨?_, ?_⟩, fun h => ?_, fun h => ?_⟩
      · exact le_min (by norm_num) (by linarith)
      · exact (min_le_left _ _).trans (by norm_num)
      · exact (by norm_num : (0:Rat) ≤ 0.2).trans (le_max_left _ _)
      · exact max_le (by norm_num) (by linarith)
      · exact le_min (by linarith) (by linarith)
      · exact max_le (by linarith) (by linarith)
    · exact ⟨⟨ha0, ha1⟩, ⟨hc0, hc1⟩, fun _ => le_refl _, fun _ => le_refl _⟩

/-- C9 witness: the adaptation bounds evaluated for a fresh medium bot
(aggression 0.6, caution 0.4). -/
theorem bot_adaptation_behaviour_witness :
    (0 ≤ (exBmed.make_decision exPl 1200 [0.99, 0.99] 25).aggression ∧
     (exBmed.make_decision exPl 1200 [0.99, 0.99] 25).aggression ≤ 1) ∧
    (0 ≤ (exBmed.make_decision exPl 1200 [0.99, 0.99] 25).caution ∧
     (exBmed.make_decision exPl 1200 [0.99, 0.99] 25).caution ≤ 1) ∧
    (exBmed.aggression ≤ 0.8 →
      exBmed.aggression
        ≤ (exBmed.make_decision exPl 1200 [0.99, 0.99] 25).aggression) ∧
    (0.2 ≤ exBmed.caution →
      (exBmed.make_decision exPl 1200 [0.99, 0.99] 25).caution
        ≤ exBmed.caution) :=
  bot_adaptation_behaviour exBmed exPl 1200 [0.99, 0.99] 25
    (by norm_num [exBmed, mkBot, difficultySettings])
    (by norm_num [exBmed, mkBot, difficultySettings])
    (by norm_num [exBmed, mkBot, difficultySettings])
    (by norm_num [exBmed, mkBot, difficultySettings])

/-- C9 counterexample: an insane-difficulty bot (aggression 0.9, caution
0.1) at half health: one decision DECREASES aggression (0.9 to 0.8) and
INCREASES caution (0.1 to 0.2), refuting "aggression is non-decreasing
and caution non-increasing". -/
theorem insane_bot_adaptation_not_monotone :
    (exB9.make_decision exPl 1200 [0.99, 0.99] 25).aggression
        < exB9.aggression ∧
    exB9.caution
        < (exB9.make_decision exPl 1200 [0.99, 0.99] 25).caution := by
  constructor <;>
    norm_num [exB9, exPl, mkBot, mkPlayer, PARAMETERS, difficultySettings,
      Bot.make_decision, decideBand, draw, moveToward, Bot.adaptHealth,
      Player.stop_moving, Player.block, Player.attack, Player.move_left,
      Player.move_right, Player.center_x, Player.determine_attack_hand,
      abs_of_nonneg]

/-- C10: a bot below 30% health with an expired block cooldown can, on a
favourable random draw (any r < 0.3), start a new block during a single
`Bot.update` with the opponent position supplied — outside the decision
procedure, whose cooldown is untouched and may be positive. -/
theorem bot_auto_block (b : Bot) (gy sw ox r : Rat)
    (hl : (b.p.health : Rat) < (b.p.max_health : Rat) * 0.3)
    (hbc : b.p.block_cooldown ≤ 0) (hr : r < 0.3) :
    (b.update gy sw (some ox) r).p.blocking = true ∧
    (b.update gy sw (some ox) r).p.block_cooldown = 40 ∧
    (b.update gy sw (some ox) r).decision_cooldown = b.decision_cooldown := by
  unfold Bot.update
  dsimp only
  rw [if_pos ⟨by simpa using hl, hr⟩]
  dsimp only
  unfold Player.block
  rw [if_pos (by rw [update_bc_nonpos _ _ _ _ hbc]; exact hbc)]
  dsimp only
  exact ⟨rfl, rfl, rfl⟩

/-- C10 witness: the low-health bot with a running decision cooldown (7)
blocks during `update` with the draw 0.1, leaving the decision cooldown
untouched. -/
theorem bot_auto_block_witness :
    (exB10.update 600 1200 (some 100) 0.1).p.blocking = true ∧
    (exB10.update 600 1200 (some 100) 0.1).p.block_cooldown = 40 ∧
    (exB10.update 600 1200 (some 100) 0.1).decision_cooldown
      = exB10.decision_cooldown :=
  bot_auto_block exB10 600 1200 100 0.1
    (by norm_num [exB10, mkBot, mkPlayer, PARAMETERS, difficultySettings])
    (by decide) (by norm_num)

end PYgame
